import Mathlib

set_option maxHeartbeats 1000000

/-
  A shallow embedding of the client-side logic of the mudra-identification
  web page (src/static/script.js).

  The page state held in the script's global variables becomes the record
  `PageState`; the rendered parts of the document that the script writes to
  become the record `Dom`.  Asynchronous fetches are embedded by passing the
  outcome of the network call as an explicit argument: `some response` for a
  fetch whose `.then` chain runs and `none` for a failed fetch whose
  `.catch` handler runs.  Requests the code issues are returned explicitly.
  Wall-clock instants (`Date.now()`, `toLocaleTimeString()`) are passed in as
  a `Nat` parameter.
-/

namespace MudraClient

/-- Body of a GET /current_mudra response: the JSON object with the string
field `mudra`. -/
structure CurrentMudraResponse where
  mudra : String
  deriving Repr, DecidableEq

/-- Body of a GET /mudra_list response: the JSON object with the
string-array field `mudras`. -/
structure MudraListResponse where
  mudras : List String
  deriving Repr, DecidableEq

/-- Body of a GET /mudra_info/NAME response: fields `description`,
`meaning`, `usage` and the optional field `image`.  A JS-falsy image value
(absent or the empty string) is modelled by `none` or `some ""`. -/
structure MudraInfo where
  description : String
  meaning : String
  usage : String
  image : Option String
  deriving Repr, DecidableEq

/-- One entry of the detection history: the object pushed by
`addToHistory`, with `name` the mudra and `time` the instant of the
detection. -/
structure HistEntry where
  name : String
  time : Nat
  deriving Repr, DecidableEq

/-- Rendered content of the mudras-grid element: either one card per
mudra name (in order), or the failure message installed by
`loadMudraList`'s catch handler. -/
inductive GridView where
  | cards (names : List String)
  | failureMessage
  deriving Repr, DecidableEq

/-- The script's global variables (script.js lines 1-13). -/
structure PageState where
  detectionCount : Nat
  uniqueMudras : List String
  sessionStartTime : Nat
  mudraHistory : List HistEntry
  currentMudra : String
  previousMudra : String
  allMudras : List String
  isUpdating : Bool
  stableFrames : Nat
  requiredStableFrames : Nat
  lastDetectedMudra : Option String
  currentMudraInfo : Option MudraInfo
  deriving Repr, DecidableEq

/-- The parts of the document the script writes to. -/
structure Dom where
  mudraNameText : String
  mudraNameClass : String
  statusText : String
  mudraDescription : String
  detailsBtnVisible : Bool
  historyItems : List HistEntry
  grid : GridView
  detectionCountText : Nat
  uniqueMudrasText : Nat
  sessionTimeText : Nat
  modalMudraName : String
  modalMeaning : String
  modalDescription : String
  modalUsage : String
  modalImageSrc : String
  modalImageVisible : Bool
  mudraModalVisible : Bool
  infoModalVisible : Bool
  helpModalVisible : Bool
  deriving Repr, DecidableEq

/-- An HTTP request issued by the client. -/
inductive Request where
  | currentMudraReq
  | mudraListReq
  | mudraInfoReq (name : String)
  deriving Repr, DecidableEq

/-- JS `Set.prototype.add`: insertion-ordered, no duplicates. -/
def setAdd (xs : List String) (x : String) : List String :=
  if x ∈ xs then xs else xs ++ [x]

/-- The pure list operation inside `addToHistory` (script.js lines
131-138): unshift the new entry, then pop the last entry when the length
exceeds 10. -/
def histPush (e : HistEntry) (h : List HistEntry) : List HistEntry :=
  let h2 := e :: h
  if h2.length > 10 then h2.dropLast else h2

/-- `addToHistory` (script.js lines 126-153): update the `mudraHistory`
array and re-render the history list. -/
def addToHistory (mudraName : String) (now : Nat) (s : PageState) (d : Dom) :
    PageState × Dom :=
  let hist := histPush ⟨mudraName, now⟩ s.mudraHistory
  ({ s with mudraHistory := hist }, { d with historyItems := hist })

/-- `updateStats` (script.js lines 93-96). -/
def updateStats (s : PageState) (d : Dom) : Dom :=
  { d with detectionCountText := s.detectionCount,
           uniqueMudrasText := s.uniqueMudras.length }

/-- `updateStabilityIndicator` (script.js lines 99-114). -/
def updateStabilityIndicator (s : PageState) (d : Dom) : Dom :=
  if s.currentMudra = "No Mudra Detected" then
    { d with statusText := "Waiting..." }
  else if s.stableFrames < s.requiredStableFrames then
    { d with statusText :=
        "Stabilizing... (" ++ toString s.stableFrames ++ "/" ++
          toString s.requiredStableFrames ++ ")" }
  else
    { d with statusText := "Stable Detection" }

/-- `updateSessionTime` (script.js lines 117-123), with the rendered value
kept as elapsed whole seconds. -/
def updateSessionTime (now : Nat) (s : PageState) (d : Dom) : Dom :=
  { d with sessionTimeText := (now - s.sessionStartTime) / 1000 }

/-- Completion of the fetch issued by `fetchMudraInfo` (script.js lines
175-191): on success store the info and show the description and details
button; on failure only log. -/
def fetchMudraInfo (resp : Option MudraInfo) (s : PageState) (d : Dom) :
    PageState × Dom :=
  match resp with
  | some info =>
      ({ s with currentMudraInfo := some info },
       { d with mudraDescription := info.description,
                detailsBtnVisible := true })
  | none => (s, d)

/-- `showMudraDetails` (script.js lines 201-221).  The image is shown only
when `info.image` is JS-truthy (present and non-empty); the `src`
attribute is written only in that case. -/
def showMudraDetails (mudraName : String) (info : MudraInfo) (d : Dom) :
    Dom :=
  let d := { d with modalMudraName := mudraName,
                    modalMeaning := info.meaning,
                    modalDescription := info.description,
                    modalUsage := info.usage }
  let d :=
    match info.image with
    | some img =>
        if img ≠ "" then
          { d with modalImageSrc := "/images/" ++ img,
                   modalImageVisible := true }
        else { d with modalImageVisible := false }
    | none => { d with modalImageVisible := false }
  { d with mudraModalVisible := true }

/-- `showCurrentMudraDetails` (script.js lines 194-198). -/
def showCurrentMudraDetails (s : PageState) (d : Dom) : Dom :=
  match s.currentMudraInfo with
  | some info =>
      if s.currentMudra ≠ "No Mudra Detected" then
        showMudraDetails s.currentMudra info d
      else d
  | none => d

/-- `closeMudraDetails` (script.js lines 224-226). -/
def closeMudraDetails (d : Dom) : Dom :=
  { d with mudraModalVisible := false }

/-- Completion of the fetch issued by `loadMudraList` (script.js lines
229-265): on success store the list and build one card per mudra, in
order; on failure replace the grid content with a failure message. -/
def loadMudraList (resp : Option MudraListResponse) (s : PageState)
    (d : Dom) : PageState × Dom :=
  match resp with
  | some data =>
      ({ s with allMudras := data.mudras },
       { d with grid := GridView.cards data.mudras })
  | none =>
      (s, { d with grid := GridView.failureMessage })

/-- Completion of the fetch started by a click on a mudra card (script.js
lines 245-255).  The third component is the alert text shown by the catch
handler, when any. -/
def mudraCardClick (mudra : String) (resp : Option MudraInfo)
    (s : PageState) (d : Dom) : PageState × Dom × Option String :=
  match resp with
  | some info => (s, showMudraDetails mudra info d, none)
  | none => (s, d, some "Unable to load mudra information")

/-- `toggleInfo` (script.js lines 268-271). -/
def toggleInfo (d : Dom) : Dom :=
  { d with infoModalVisible := !d.infoModalVisible }

/-- `toggleHelp` (script.js lines 273-276). -/
def toggleHelp (d : Dom) : Dom :=
  { d with helpModalVisible := !d.helpModalVisible }

/-- `resetStats` (script.js lines 306-331): behind a confirm dialog, zero
the counters, clear the history, and restart the session clock; nothing
else is touched.  `confirmed` is the user's answer to the dialog. -/
def resetStats (confirmed : Bool) (now : Nat) (s : PageState) (d : Dom) :
    PageState × Dom :=
  if confirmed then
    let s := { s with detectionCount := 0, uniqueMudras := [],
                      mudraHistory := [], sessionStartTime := now,
                      lastDetectedMudra := none, stableFrames := 0 }
    let d := updateStats s d
    let d := updateSessionTime now s d
    let d := { d with historyItems := [] }
    (s, d)
  else (s, d)

/-- Lines 33-41 of script.js: reset the stability counter on a change of
mudra, increment it otherwise. -/
def stabilityUpdate (mudraName : String) (s : PageState) : PageState :=
  if mudraName ≠ s.currentMudra then
    { s with stableFrames := 0, previousMudra := s.currentMudra,
             currentMudra := mudraName }
  else
    { s with stableFrames := s.stableFrames + 1 }

/-- Lines 44-48 of script.js: styling for the no-detection case. -/
def noDetectionBranch (d : Dom) : Dom :=
  { d with mudraNameClass := "mudra-name no-detection",
           statusText := "Waiting...", mudraDescription := "",
           detailsBtnVisible := false }

/-- Lines 49-77 of script.js: styling, the conditional fetchMudraInfo
request, and the conditional counting of a new detection. -/
def detectedBranch (mudraName : String) (now : Nat) (s : PageState)
    (d : Dom) : PageState × Dom × List Request :=
  let d := { d with mudraNameClass := "mudra-name detected" }
  let d := updateStabilityIndicator s d
  let reqs : List Request :=
    if s.stableFrames = s.requiredStableFrames ∧
        s.lastDetectedMudra ≠ some mudraName then
      [Request.mudraInfoReq mudraName]
    else []
  if s.stableFrames = s.requiredStableFrames ∧
      s.lastDetectedMudra ≠ some mudraName then
    let s := { s with detectionCount := s.detectionCount + 1,
                      uniqueMudras := setAdd s.uniqueMudras mudraName,
                      lastDetectedMudra := some mudraName }
    let d := updateStats s d
    let p := addToHistory mudraName now s d
    (p.1, p.2, reqs)
  else (s, d, reqs)

/-- The `.then` body of the /current_mudra fetch (script.js lines
24-83). -/
def pollBody (data : CurrentMudraResponse) (now : Nat) (s : PageState)
    (d : Dom) : PageState × Dom × List Request :=
  let mudraName := data.mudra
  let d := { d with mudraNameText := mudraName }
  let s := stabilityUpdate mudraName s
  let r :=
    if mudraName = "No Mudra Detected" then
      (s, noDetectionBranch d, ([] : List Request))
    else detectedBranch mudraName now s d
  let s := r.1
  let s :=
    if mudraName = "No Mudra Detected" ∧
        s.stableFrames > s.requiredStableFrames then
      { s with lastDetectedMudra := none }
    else s
  (s, r.2.1, r.2.2)

/-- `updateMudraDisplay` (script.js lines 16-90), run to completion: the
guard check, the fetch of /current_mudra with outcome `resp`, and the
`finally` clearing of `isUpdating`.  The returned list holds the requests
issued during the call. -/
def updateMudraDisplay (resp : Option CurrentMudraResponse) (now : Nat)
    (s : PageState) (d : Dom) : PageState × Dom × List Request :=
  if s.isUpdating then (s, d, [])
  else
    let s1 := { s with isUpdating := true }
    match resp with
    | none => ({ s1 with isUpdating := false }, d, [Request.currentMudraReq])
    | some data =>
        let r := pollBody data now s1 d
        ({ r.1 with isUpdating := false }, r.2.1,
          Request.currentMudraReq :: r.2.2)

/-- The initial values of the global variables (script.js lines 1-13),
with `now` the load instant taken by `Date.now()`. -/
def initState (now : Nat) : PageState where
  detectionCount := 0
  uniqueMudras := []
  sessionStartTime := now
  mudraHistory := []
  currentMudra := "No Mudra Detected"
  previousMudra := "No Mudra Detected"
  allMudras := []
  isUpdating := false
  stableFrames := 0
  requiredStableFrames := 3
  lastDetectedMudra := none
  currentMudraInfo := none

/-- The document as served, before any script writes. -/
def initDom : Dom where
  mudraNameText := "No Mudra Detected"
  mudraNameClass := "mudra-name no-detection"
  statusText := "Waiting..."
  mudraDescription := ""
  detailsBtnVisible := false
  historyItems := []
  grid := GridView.cards []
  detectionCountText := 0
  uniqueMudrasText := 0
  sessionTimeText := 0
  modalMudraName := ""
  modalMeaning := ""
  modalDescription := ""
  modalUsage := ""
  modalImageSrc := ""
  modalImageVisible := false
  mudraModalVisible := false
  infoModalVisible := false
  helpModalVisible := false

/-- The events that drive the page after load: completions of the polled
/current_mudra fetch, of the /mudra_list fetch, of /mudra_info fetches
(from the status card or from a card click), the modal interactions, the
reset button, and the session-time tick. -/
inductive Event where
  | poll (resp : Option CurrentMudraResponse) (now : Nat)
  | listLoad (resp : Option MudraListResponse)
  | infoArrival (resp : Option MudraInfo)
  | cardClick (name : String) (resp : Option MudraInfo)
  | detailsOpen
  | detailsClose
  | infoToggle
  | helpToggle
  | reset (confirmed : Bool) (now : Nat)
  | tick (now : Nat)
  deriving Repr, DecidableEq

/-- One step of the page: dispatch an event to the handler from
script.js. -/
def step (e : Event) (p : PageState × Dom) : PageState × Dom :=
  match e with
  | Event.poll resp now =>
      let r := updateMudraDisplay resp now p.1 p.2
      (r.1, r.2.1)
  | Event.listLoad resp => loadMudraList resp p.1 p.2
  | Event.infoArrival resp => fetchMudraInfo resp p.1 p.2
  | Event.cardClick name resp =>
      let r := mudraCardClick name resp p.1 p.2
      (r.1, r.2.1)
  | Event.detailsOpen => (p.1, showCurrentMudraDetails p.1 p.2)
  | Event.detailsClose => (p.1, closeMudraDetails p.2)
  | Event.infoToggle => (p.1, toggleInfo p.2)
  | Event.helpToggle => (p.1, toggleHelp p.2)
  | Event.reset confirmed now => resetStats confirmed now p.1 p.2
  | Event.tick now => (p.1, updateSessionTime now p.1 p.2)

/-- The page run from load over a list of events. -/
def run (es : List Event) (now : Nat) : PageState × Dom :=
  es.foldl (fun p e => step e p) (initState now, initDom)

/-- The poll event whose fetch succeeded with mudra name `m`. -/
def pollE (m : String) (now : Nat) : Event :=
  Event.poll (some ⟨m⟩) now

/-- Iterate `k` successive successful polls all returning `m`. -/
def pollTimes (m : String) (now : Nat) : Nat → PageState × Dom → PageState × Dom
  | 0, p => p
  | k + 1, p => pollTimes m now k (step (pollE m now) p)

/-! Helper lemmas about the history cap. -/

theorem histPush_length_le (e : HistEntry) (h : List HistEntry)
    (hle : h.length ≤ 10) : (histPush e h).length ≤ 10 := by
  simp only [histPush]
  split
  · simp only [List.length_dropLast, List.length_cons]
    omega
  · rename_i hng
    simp only [List.length_cons, gt_iff_lt, not_lt] at hng
    simp only [List.length_cons]
    omega

theorem histPush_eq_take (e : HistEntry) (h : List HistEntry)
    (hle : h.length ≤ 10) : histPush e h = (e :: h).take 10 := by
  simp only [histPush]
  split
  · rename_i hgt
    simp only [List.length_cons, gt_iff_lt] at hgt
    have h10 : h.length = 10 := by omega
    rw [List.dropLast_eq_take, List.length_cons, h10]
  · rename_i hng
    simp only [List.length_cons, gt_iff_lt, not_lt] at hng
    exact (List.take_of_length_le (by simp only [List.length_cons]; omega)).symm

theorem foldl_histPush (ds : List HistEntry) (h : List HistEntry)
    (hle : h.length ≤ 10) :
    ds.foldl (fun acc e => histPush e acc) h = (ds.reverse ++ h).take 10 := by
  induction ds generalizing h with
  | nil =>
      simp only [List.foldl_nil, List.reverse_nil, List.nil_append]
      rw [List.take_of_length_le hle]
  | cons e t ih =>
      rw [List.foldl_cons, ih (histPush e h) (histPush_length_le e h hle),
        histPush_eq_take e h hle, List.reverse_cons, List.append_assoc,
        List.singleton_append, List.take_append_eq_append_take,
        List.take_append_eq_append_take, List.take_take]
      congr 1
      congr 1
      omega

/-! How each handler acts on the history and the detection counter. -/

theorem detectedBranch_state (mudraName : String) (now : Nat)
    (s : PageState) (d : Dom) :
    (detectedBranch mudraName now s d).1 = s ∨
    (detectedBranch mudraName now s d).1 =
      { s with detectionCount := s.detectionCount + 1,
               uniqueMudras := setAdd s.uniqueMudras mudraName,
               lastDetectedMudra := some mudraName,
               mudraHistory := histPush ⟨mudraName, now⟩ s.mudraHistory } := by
  unfold detectedBranch addToHistory
  split
  · right; rfl
  · left; rfl

theorem stabilityUpdate_hist (mudraName : String) (s : PageState) :
    (stabilityUpdate mudraName s).mudraHistory = s.mudraHistory := by
  unfold stabilityUpdate; split <;> rfl

theorem stabilityUpdate_count (mudraName : String) (s : PageState) :
    (stabilityUpdate mudraName s).detectionCount = s.detectionCount := by
  unfold stabilityUpdate; split <;> rfl

theorem pollBody_hist (data : CurrentMudraResponse) (now : Nat)
    (s : PageState) (d : Dom) :
    (pollBody data now s d).1.mudraHistory = s.mudraHistory ∨
    (pollBody data now s d).1.mudraHistory =
      histPush ⟨data.mudra, now⟩ s.mudraHistory := by
  have hstab := stabilityUpdate_hist data.mudra s
  rcases detectedBranch_state data.mudra now (stabilityUpdate data.mudra s)
      { d with mudraNameText := data.mudra } with h | h
  all_goals
    unfold pollBody
    dsimp only
    split_ifs <;> simp_all

theorem pollBody_count (data : CurrentMudraResponse) (now : Nat)
    (s : PageState) (d : Dom) :
    s.detectionCount ≤ (pollBody data now s d).1.detectionCount := by
  have hstab := stabilityUpdate_count data.mudra s
  rcases detectedBranch_state data.mudra now (stabilityUpdate data.mudra s)
      { d with mudraNameText := data.mudra } with h | h
  all_goals
    unfold pollBody
    dsimp only
    split_ifs <;> simp_all

theorem updateMudraDisplay_hist (resp : Option CurrentMudraResponse)
    (now : Nat) (s : PageState) (d : Dom)
    (hle : s.mudraHistory.length ≤ 10) :
    (updateMudraDisplay resp now s d).1.mudraHistory.length ≤ 10 := by
  by_cases hupd : s.isUpdating
  · simpa [updateMudraDisplay, hupd] using hle
  · cases resp with
    | none => simpa [updateMudraDisplay, hupd] using hle
    | some data =>
        rcases pollBody_hist data now { s with isUpdating := true } d
          with h | h
        · simp only [updateMudraDisplay, if_neg hupd]
          simpa [h] using hle
        · simp only [updateMudraDisplay, if_neg hupd]
          simp only [h]
          exact histPush_length_le _ _ hle

theorem updateMudraDisplay_count (resp : Option CurrentMudraResponse)
    (now : Nat) (s : PageState) (d : Dom) :
    s.detectionCount ≤ (updateMudraDisplay resp now s d).1.detectionCount := by
  by_cases hupd : s.isUpdating
  · simp [updateMudraDisplay, hupd]
  · cases resp with
    | none => simp [updateMudraDisplay, hupd]
    | some data =>
        have h := pollBody_count data now { s with isUpdating := true } d
        simp only [updateMudraDisplay, if_neg hupd]
        simpa using h

theorem step_hist_le (e : Event) (p : PageState × Dom)
    (hle : p.1.mudraHistory.length ≤ 10) :
    (step e p).1.mudraHistory.length ≤ 10 := by
  cases e with
  | poll resp now => exact updateMudraDisplay_hist resp now p.1 p.2 hle
  | listLoad resp => cases resp <;> simpa [step, loadMudraList] using hle
  | infoArrival resp => cases resp <;> simpa [step, fetchMudraInfo] using hle
  | cardClick name resp =>
      cases resp <;> simpa [step, mudraCardClick] using hle
  | detailsOpen => simpa [step] using hle
  | detailsClose => simpa [step] using hle
  | infoToggle => simpa [step] using hle
  | helpToggle => simpa [step] using hle
  | reset confirmed now =>
      cases confirmed with
      | false => simpa [step, resetStats] using hle
      | true => simp [step, resetStats]
  | tick now => simpa [step] using hle

theorem foldl_step_hist_le (es : List Event) (p : PageState × Dom)
    (hle : p.1.mudraHistory.length ≤ 10) :
    (es.foldl (fun q e => step e q) p).1.mudraHistory.length ≤ 10 := by
  induction es generalizing p with
  | nil => exact hle
  | cons e t ih => exact ih (step e p) (step_hist_le e p hle)

/-- C2: the detection history is bounded.  Whenever `addToHistory` is
called in a state whose history respects the cap, the history after the
call still has at most 10 entries; and from the initial page state, every
sequence of events leaves `mudraHistory` with at most 10 entries. -/
theorem C2_history_bounded :
    (∀ (name : String) (now : Nat) (s : PageState) (d : Dom),
      s.mudraHistory.length ≤ 10 →
      (addToHistory name now s d).1.mudraHistory.length ≤ 10) ∧
    (∀ (es : List Event) (now : Nat),
      (run es now).1.mudraHistory.length ≤ 10) := by
  constructor
  · intro name now s d hle
    exact histPush_length_le _ _ hle
  · intro es now
    exact foldl_step_hist_le es (initState now, initDom) (by simp [initState])

/-- Witness for C2 at concrete inputs. -/
theorem C2_history_bounded_witness :
    (addToHistory "Pataka" 0 (initState 0) initDom).1.mudraHistory.length ≤ 10 :=
  C2_history_bounded.1 "Pataka" 0 (initState 0) initDom (by decide)

/-- C10: the history is newest-first.  `addToHistory` pushes through
`histPush`; under the cap, `histPush` prepends the new entry and keeps the
10 newest (dropping the oldest, at the back); and folding the pushes of
the detections `ds`, in the order they were counted, over the empty
history yields exactly the most recent `min (ds.length) 10` detections,
newest first. -/
theorem C10_history_newest_first :
    (∀ (name : String) (now : Nat) (s : PageState) (d : Dom),
      (addToHistory name now s d).1.mudraHistory =
        histPush ⟨name, now⟩ s.mudraHistory) ∧
    (∀ (e : HistEntry) (h : List HistEntry), h.length ≤ 10 →
      histPush e h = (e :: h).take 10) ∧
    (∀ ds : List HistEntry,
      ds.foldl (fun acc e => histPush e acc) [] = ds.reverse.take 10) := by
  refine ⟨fun name now s d => rfl, histPush_eq_take, fun ds => ?_⟩
  rw [foldl_histPush ds [] (by simp), List.append_nil]

/-- Witness for C10 at concrete inputs. -/
theorem C10_history_newest_first_witness :
    histPush ⟨"Pataka", 0⟩ [⟨"Mukula", 1⟩] =
      (⟨"Pataka", 0⟩ :: [⟨"Mukula", 1⟩] : List HistEntry).take 10 :=
  C10_history_newest_first.2.1 ⟨"Pataka", 0⟩ [⟨"Mukula", 1⟩] (by decide)

/-- C4: the detection counter is monotonic until manually reset.  No step
other than a confirmed reset decreases `detectionCount`, and the confirmed
`resetStats` step sets it to 0. -/
theorem C4_counter_monotonic :
    (∀ (e : Event) (s : PageState) (d : Dom),
      (∀ now : Nat, e ≠ Event.reset true now) →
      s.detectionCount ≤ (step e (s, d)).1.detectionCount) ∧
    (∀ (now : Nat) (s : PageState) (d : Dom),
      (step (Event.reset true now) (s, d)).1.detectionCount = 0) := by
  constructor
  · intro e s d hne
    cases e with
    | poll resp now => exact updateMudraDisplay_count resp now s d
    | listLoad resp => cases resp <;> simp [step, loadMudraList]
    | infoArrival resp => cases resp <;> simp [step, fetchMudraInfo]
    | cardClick name resp => cases resp <;> simp [step, mudraCardClick]
    | detailsOpen => exact Nat.le_refl _
    | detailsClose => exact Nat.le_refl _
    | infoToggle => exact Nat.le_refl _
    | helpToggle => exact Nat.le_refl _
    | reset confirmed now =>
        cases confirmed with
        | true => exact absurd rfl (hne now)
        | false => simp [step, resetStats]
    | tick now => exact Nat.le_refl _
  · intro now s d
    simp [step, resetStats]

/-- Witness for C4 at concrete inputs. -/
theorem C4_counter_monotonic_witness :
    (initState 0).detectionCount ≤
      (step (pollE "Pataka" 0) (initState 0, initDom)).1.detectionCount :=
  C4_counter_monotonic.1 (pollE "Pataka" 0) (initState 0) initDom
    (fun now h => by simp [pollE] at h)

/-- C8: the page starts from scratch: the initial values of the counters,
the set of seen mudras, the history, the stability counter, the last
counted mudra and the current gesture label. -/
theorem C8_initial_state (now : Nat) :
    (initState now).detectionCount = 0 ∧
    (initState now).uniqueMudras = [] ∧
    (initState now).mudraHistory = [] ∧
    (initState now).stableFrames = 0 ∧
    (initState now).lastDetectedMudra = none ∧
    (initState now).currentMudra = "No Mudra Detected" :=
  ⟨rfl, rfl, rfl, rfl, rfl, rfl⟩

/-- C9: a confirmed reset zeroes exactly the six statistics variables and
restarts the session clock, leaving every other page variable as it was;
a declined reset changes nothing at all. -/
theorem C9_reset_frame (now : Nat) (s : PageState) (d : Dom) :
    (resetStats true now s d).1 =
      { s with detectionCount := 0, uniqueMudras := [], mudraHistory := [],
               sessionStartTime := now, lastDetectedMudra := none,
               stableFrames := 0 } ∧
    resetStats false now s d = (s, d) :=
  ⟨rfl, rfl⟩

/-- C5: the in-flight guard.  A call of `updateMudraDisplay` that starts
while `isUpdating` holds returns at once, issuing no request and changing
nothing; a call that does run clears `isUpdating` on completion, whether
the fetch succeeded or failed. -/
theorem C5_inflight_guard (resp : Option CurrentMudraResponse) (now : Nat)
    (s : PageState) (d : Dom) :
    (s.isUpdating = true → updateMudraDisplay resp now s d = (s, d, [])) ∧
    (s.isUpdating = false →
      (updateMudraDisplay resp now s d).1.isUpdating = false) := by
  constructor
  · intro hupd
    simp [updateMudraDisplay, hupd]
  · intro hupd
    cases resp with
    | none => simp [updateMudraDisplay, hupd]
    | some data => simp [updateMudraDisplay, hupd]

/-- Witness for C5 at concrete inputs. -/
theorem C5_inflight_guard_witness :
    updateMudraDisplay none 0 { initState 0 with isUpdating := true } initDom =
      ({ initState 0 with isUpdating := true }, initDom, []) :=
  (C5_inflight_guard none 0 { initState 0 with isUpdating := true } initDom).1
    rfl

/-- C3 counterexample: a failed /mudra_list fetch does not leave the
rendered UI in its last-known state: the grid content is replaced by the
failure message. -/
theorem C3_counterexample :
    (loadMudraList none (initState 0) initDom).2.grid ≠ initDom.grid := by
  decide

/-- C3 as amended: a failed poll and a failed status-card info fetch
change no page state and no rendered UI; a failed /mudra_list fetch and a
failed card-click info fetch also change no page state, but the former
replaces the grid with a failure message and the latter raises an
alert. -/
theorem C3_amended_failures (now : Nat) (s : PageState) (d : Dom)
    (g : String) :
    ((updateMudraDisplay none now s d).1 = s ∧
      (updateMudraDisplay none now s d).2.1 = d ∧
      fetchMudraInfo none s d = (s, d)) ∧
    ((loadMudraList none s d).1 = s ∧
      (loadMudraList none s d).2 = { d with grid := GridView.failureMessage }) ∧
    mudraCardClick g none s d =
      (s, d, some "Unable to load mudra information") := by
  refine ⟨⟨?_, ?_, rfl⟩, ⟨rfl, rfl⟩, rfl⟩
  · obtain ⟨dc, uniq, sst, hist, cur, prev, all, upd, sf, req, last, info⟩ := s
    cases upd <;> simp [updateMudraDisplay]
  · by_cases hupd : s.isUpdating <;> simp [updateMudraDisplay, hupd]

theorem detectedBranch_nameText (mudraName : String) (now : Nat)
    (s : PageState) (d : Dom) :
    (detectedBranch mudraName now s d).2.1.mudraNameText = d.mudraNameText := by
  unfold detectedBranch addToHistory updateStats updateStabilityIndicator
  dsimp only
  split_ifs <;> rfl

theorem pollBody_nameText (data : CurrentMudraResponse) (now : Nat)
    (s : PageState) (d : Dom) :
    (pollBody data now s d).2.1.mudraNameText = data.mudra := by
  unfold pollBody
  dsimp only
  split_ifs <;>
    simp [noDetectionBranch, detectedBranch_nameText]

/-- C7: the consumed HTTP surface.  The poll handler displays exactly the
`mudra` field of the /current_mudra response; `loadMudraList` stores the
`mudras` array and renders one card per element, in array order;
`fetchMudraInfo` reads `description`; and the details modal reads
`meaning`, `description`, `usage`, showing an image only when the `image`
field is present. -/
theorem C7_http_surface (s : PageState) (d : Dom)
    (r : CurrentMudraResponse) (lr : MudraListResponse) (info : MudraInfo)
    (name : String) (now : Nat) :
    (s.isUpdating = false →
      (updateMudraDisplay (some r) now s d).2.1.mudraNameText = r.mudra) ∧
    ((loadMudraList (some lr) s d).1.allMudras = lr.mudras ∧
      (loadMudraList (some lr) s d).2.grid = GridView.cards lr.mudras) ∧
    ((fetchMudraInfo (some info) s d).2.mudraDescription = info.description ∧
      (fetchMudraInfo (some info) s d).1.currentMudraInfo = some info) ∧
    ((showMudraDetails name info d).modalMeaning = info.meaning ∧
      (showMudraDetails name info d).modalDescription = info.description ∧
      (showMudraDetails name info d).modalUsage = info.usage ∧
      ((showMudraDetails name info d).modalImageVisible = true →
        info.image.isSome = true)) := by
  refine ⟨?_, ⟨rfl, rfl⟩, ⟨rfl, rfl⟩, ?_⟩
  · intro hupd
    simp [updateMudraDisplay, hupd, pollBody_nameText]
  · unfold showMudraDetails
    cases info.image with
    | none => simp
    | some img =>
        by_cases himg : img = "" <;> simp [himg]

/-! Characterization of a single completed poll, by case on the response
and the current state. -/

theorem poll_state_change (g : String) (now : Nat) (p : PageState × Dom)
    (hupd : p.1.isUpdating = false) (hg : g ≠ "No Mudra Detected")
    (hne : g ≠ p.1.currentMudra)
    (hreq : (0 : Nat) ≠ p.1.requiredStableFrames) :
    (step (pollE g now) p).1 =
      { p.1 with stableFrames := 0, previousMudra := p.1.currentMudra,
                 currentMudra := g, isUpdating := false } := by
  obtain ⟨s, d⟩ := p
  obtain ⟨dc, uniq, sst, hist, cur, prev, all, upd, sf, req, last, info⟩ := s
  dsimp only at hupd hne hreq ⊢
  subst hupd
  simp [step, pollE, updateMudraDisplay, pollBody, stabilityUpdate,
    detectedBranch, noDetectionBranch, updateStabilityIndicator, updateStats,
    addToHistory, hg, hne, hreq]

theorem poll_state_same (g : String) (now : Nat) (p : PageState × Dom)
    (hupd : p.1.isUpdating = false) (hg : g ≠ "No Mudra Detected")
    (heq : p.1.currentMudra = g)
    (hlt : p.1.stableFrames + 1 ≠ p.1.requiredStableFrames) :
    (step (pollE g now) p).1 =
      { p.1 with stableFrames := p.1.stableFrames + 1,
                 isUpdating := false } := by
  obtain ⟨s, d⟩ := p
  obtain ⟨dc, uniq, sst, hist, cur, prev, all, upd, sf, req, last, info⟩ := s
  dsimp only at hupd heq hlt ⊢
  subst hupd
  subst heq
  simp [step, pollE, updateMudraDisplay, pollBody, stabilityUpdate,
    detectedBranch, noDetectionBranch, updateStabilityIndicator, updateStats,
    addToHistory, hg, hlt]

theorem poll_state_count (g : String) (now : Nat) (p : PageState × Dom)
    (hupd : p.1.isUpdating = false) (hg : g ≠ "No Mudra Detected")
    (heq : p.1.currentMudra = g)
    (hthr : p.1.stableFrames + 1 = p.1.requiredStableFrames)
    (hlast : p.1.lastDetectedMudra ≠ some g) :
    (step (pollE g now) p).1 =
      { p.1 with stableFrames := p.1.stableFrames + 1,
                 detectionCount := p.1.detectionCount + 1,
                 uniqueMudras := setAdd p.1.uniqueMudras g,
                 lastDetectedMudra := some g,
                 mudraHistory := histPush ⟨g, now⟩ p.1.mudraHistory,
                 isUpdating := false } := by
  obtain ⟨s, d⟩ := p
  obtain ⟨dc, uniq, sst, hist, cur, prev, all, upd, sf, req, last, info⟩ := s
  dsimp only at hupd heq hthr hlast ⊢
  subst hupd
  subst heq
  simp [step, pollE, updateMudraDisplay, pollBody, stabilityUpdate,
    detectedBranch, noDetectionBranch, updateStabilityIndicator, updateStats,
    addToHistory, hg, hthr, hlast]

theorem poll_state_stable_noCount (g : String) (now : Nat)
    (p : PageState × Dom) (hupd : p.1.isUpdating = false)
    (hg : g ≠ "No Mudra Detected") (heq : p.1.currentMudra = g)
    (hlast : p.1.lastDetectedMudra = some g) :
    (step (pollE g now) p).1 =
      { p.1 with stableFrames := p.1.stableFrames + 1,
                 isUpdating := false } := by
  obtain ⟨s, d⟩ := p
  obtain ⟨dc, uniq, sst, hist, cur, prev, all, upd, sf, req, last, info⟩ := s
  dsimp only at hupd heq hlast ⊢
  subst hupd
  subst heq
  subst hlast
  simp [step, pollE, updateMudraDisplay, pollBody, stabilityUpdate,
    detectedBranch, noDetectionBranch, updateStabilityIndicator, updateStats,
    addToHistory, hg]

theorem poll_state_noMudra_change (now : Nat) (p : PageState × Dom)
    (hupd : p.1.isUpdating = false)
    (hne : p.1.currentMudra ≠ "No Mudra Detected") :
    (step (pollE "No Mudra Detected" now) p).1 =
      { p.1 with stableFrames := 0, previousMudra := p.1.currentMudra,
                 currentMudra := "No Mudra Detected",
                 isUpdating := false } := by
  obtain ⟨s, d⟩ := p
  obtain ⟨dc, uniq, sst, hist, cur, prev, all, upd, sf, req, last, info⟩ := s
  dsimp only at hupd hne ⊢
  subst hupd
  have hne' : "No Mudra Detected" ≠ cur := Ne.symm hne
  simp [step, pollE, updateMudraDisplay, pollBody, stabilityUpdate,
    detectedBranch, noDetectionBranch, updateStabilityIndicator, updateStats,
    addToHistory, hne']

theorem poll_state_noMudra_same (now : Nat) (p : PageState × Dom)
    (hupd : p.1.isUpdating = false)
    (heq : p.1.currentMudra = "No Mudra Detected")
    (hle : p.1.stableFrames + 1 ≤ p.1.requiredStableFrames) :
    (step (pollE "No Mudra Detected" now) p).1 =
      { p.1 with stableFrames := p.1.stableFrames + 1,
                 isUpdating := false } := by
  obtain ⟨s, d⟩ := p
  obtain ⟨dc, uniq, sst, hist, cur, prev, all, upd, sf, req, last, info⟩ := s
  dsimp only at hupd heq hle ⊢
  subst hupd
  subst heq
  have h' : ¬ (req < sf + 1) := by omega
  simp [step, pollE, updateMudraDisplay, pollBody, stabilityUpdate,
    detectedBranch, noDetectionBranch, updateStabilityIndicator, updateStats,
    addToHistory, h']

theorem poll_state_noMudra_reset (now : Nat) (p : PageState × Dom)
    (hupd : p.1.isUpdating = false)
    (heq : p.1.currentMudra = "No Mudra Detected")
    (hgt : p.1.requiredStableFrames < p.1.stableFrames + 1) :
    (step (pollE "No Mudra Detected" now) p).1 =
      { p.1 with stableFrames := p.1.stableFrames + 1,
                 lastDetectedMudra := none, isUpdating := false } := by
  obtain ⟨s, d⟩ := p
  obtain ⟨dc, uniq, sst, hist, cur, prev, all, upd, sf, req, last, info⟩ := s
  dsimp only at hupd heq hgt ⊢
  subst hupd
  subst heq
  simp [step, pollE, updateMudraDisplay, pollBody, stabilityUpdate,
    detectedBranch, noDetectionBranch, updateStabilityIndicator, updateStats,
    addToHistory, hgt]

/-- Witness for C7 at concrete inputs. -/
theorem C7_http_surface_witness :
    (updateMudraDisplay (some ⟨"Pataka"⟩) 0 (initState 0)
        initDom).2.1.mudraNameText = "Pataka" ∧
    Option.isSome (some "pataka.png") = true :=
  ⟨(C7_http_surface (initState 0) initDom ⟨"Pataka"⟩ ⟨["Pataka"]⟩
      ⟨"d", "m", "u", some "pataka.png"⟩ "Pataka" 0).1 rfl,
   (C7_http_surface (initState 0) initDom ⟨"Pataka"⟩ ⟨["Pataka"]⟩
      ⟨"d", "m", "u", some "pataka.png"⟩ "Pataka" 0).2.2.2.2.2.2 (by decide)⟩

/-- C1 counterexample: from the initial page state, three consecutive
successful polls all returning the gesture "Pataka" (a name different from
the last counted gesture, which is none) leave the detection count at 0,
the unique-mudra set empty and the history empty: no detection is counted
on the 3rd consecutive identical poll.  (The count happens on the 4th
poll, where the stability counter, reset to 0 by the first poll of the
run, reaches 3.) -/
theorem C1_counterexample :
    (pollTimes "Pataka" 0 3 (initState 0, initDom)).1.detectionCount = 0 ∧
    (pollTimes "Pataka" 0 3 (initState 0, initDom)).1.uniqueMudras = [] ∧
    (pollTimes "Pataka" 0 3 (initState 0, initDom)).1.mudraHistory = [] ∧
    (pollTimes "Pataka" 0 4 (initState 0, initDom)).1.detectionCount = 1 := by
  decide

/-- C1 as amended: a gesture `g` (not the no-detection label, different
from the current mudra and from the last counted gesture) is counted on
the 4th consecutive identical poll, not the 3rd: the first three polls of
the run leave the count, the unique set and the history unchanged, and the
4th poll increments `detectionCount` by exactly 1, adds `g` to
`uniqueMudras`, pushes one history entry, and records `g` as the last
counted gesture. -/
theorem C1_amended_count_on_fourth (s : PageState) (d : Dom) (g : String)
    (now : Nat) (hupd : s.isUpdating = false)
    (hg : g ≠ "No Mudra Detected") (hcur : s.currentMudra ≠ g)
    (hlast : s.lastDetectedMudra ≠ some g)
    (hreq : s.requiredStableFrames = 3) :
    (pollTimes g now 3 (s, d)).1.detectionCount = s.detectionCount ∧
    (pollTimes g now 3 (s, d)).1.uniqueMudras = s.uniqueMudras ∧
    (pollTimes g now 3 (s, d)).1.mudraHistory = s.mudraHistory ∧
    (pollTimes g now 4 (s, d)).1.detectionCount = s.detectionCount + 1 ∧
    (pollTimes g now 4 (s, d)).1.uniqueMudras = setAdd s.uniqueMudras g ∧
    (pollTimes g now 4 (s, d)).1.mudraHistory =
      histPush ⟨g, now⟩ s.mudraHistory ∧
    (pollTimes g now 4 (s, d)).1.lastDetectedMudra = some g := by
  have e3 : pollTimes g now 3 (s, d) =
      step (pollE g now) (step (pollE g now) (step (pollE g now) (s, d))) :=
    rfl
  have e4 : pollTimes g now 4 (s, d) =
      step (pollE g now)
        (step (pollE g now)
          (step (pollE g now) (step (pollE g now) (s, d)))) := rfl
  have h1 : (step (pollE g now) (s, d)).1 =
      { s with stableFrames := 0, previousMudra := s.currentMudra,
               currentMudra := g, isUpdating := false } :=
    poll_state_change g now (s, d) hupd hg (Ne.symm hcur) (by simp [hreq])
  have h2 : (step (pollE g now) (step (pollE g now) (s, d))).1 =
      { s with stableFrames := 1, previousMudra := s.currentMudra,
               currentMudra := g, isUpdating := false } := by
    have h := poll_state_same g now (step (pollE g now) (s, d))
      (by rw [h1]) hg (by rw [h1]) (by rw [h1]; simp [hreq])
    rw [h1] at h
    simpa using h
  have h3 : (step (pollE g now)
      (step (pollE g now) (step (pollE g now) (s, d)))).1 =
      { s with stableFrames := 2, previousMudra := s.currentMudra,
               currentMudra := g, isUpdating := false } := by
    have h := poll_state_same g now
      (step (pollE g now) (step (pollE g now) (s, d)))
      (by rw [h2]) hg (by rw [h2]) (by rw [h2]; simp [hreq])
    rw [h2] at h
    simpa using h
  have h4 : (step (pollE g now)
      (step (pollE g now)
        (step (pollE g now) (step (pollE g now) (s, d))))).1 =
      { s with stableFrames := 3, previousMudra := s.currentMudra,
               currentMudra := g, isUpdating := false,
               detectionCount := s.detectionCount + 1,
               uniqueMudras := setAdd s.uniqueMudras g,
               lastDetectedMudra := some g,
               mudraHistory := histPush ⟨g, now⟩ s.mudraHistory } := by
    have h := poll_state_count g now
      (step (pollE g now) (step (pollE g now) (step (pollE g now) (s, d))))
      (by rw [h3]) hg (by rw [h3]) (by rw [h3]; simp [hreq])
      (by rw [h3]; exact hlast)
    rw [h3] at h
    simpa using h
  rw [e3, e4, h3, h4]
  simp

/-- Witness for the amended C1 at concrete inputs. -/
theorem C1_amended_count_on_fourth_witness :
    (pollTimes "Pataka" 0 3 (initState 0, initDom)).1.detectionCount =
      (initState 0).detectionCount ∧
    (pollTimes "Pataka" 0 4 (initState 0, initDom)).1.detectionCount =
      (initState 0).detectionCount + 1 :=
  ⟨(C1_amended_count_on_fourth (initState 0) initDom "Pataka" 0 rfl
      (by decide) (by decide) (by decide) rfl).1,
   (C1_amended_count_on_fourth (initState 0) initDom "Pataka" 0 rfl
      (by decide) (by decide) (by decide) rfl).2.2.2.1⟩

/-- C6 counterexample: count "Pataka" (four consecutive polls from the
initial state), then poll "No Mudra Detected" four consecutive times: a
gap of 4 polls is strictly more than 3, yet `lastDetectedMudra` is still
"Pataka", not null.  (The reset needs `stableFrames > 3`, first true on
the 5th consecutive no-detection poll.) -/
theorem C6_counterexample :
    (pollTimes "No Mudra Detected" 0 4
        (pollTimes "Pataka" 0 4 (initState 0, initDom))).1.lastDetectedMudra =
      some "Pataka" := by
  decide

/-- C6 as amended: once `lastDetectedMudra` equals `g`, a poll of `g`
never counts a new detection and leaves `lastDetectedMudra` unchanged; and
after a counted gesture, `lastDetectedMudra` is cleared only by strictly
more than 4 consecutive "No Mudra Detected" polls: 4 such polls leave it
unchanged, the 5th resets it to null. -/
theorem C6_amended_recount_gate (s : PageState) (d : Dom) (g : String)
    (now : Nat) (hupd : s.isUpdating = false)
    (hg : g ≠ "No Mudra Detected") (hreq : s.requiredStableFrames = 3) :
    (s.lastDetectedMudra = some g →
      (step (pollE g now) (s, d)).1.detectionCount = s.detectionCount ∧
      (step (pollE g now) (s, d)).1.lastDetectedMudra = some g) ∧
    (s.currentMudra ≠ "No Mudra Detected" →
      (pollTimes "No Mudra Detected" now 4 (s, d)).1.lastDetectedMudra =
        s.lastDetectedMudra ∧
      (pollTimes "No Mudra Detected" now 5 (s, d)).1.lastDetectedMudra =
        none) := by
  constructor
  · intro hlast
    by_cases hcg : s.currentMudra = g
    · rw [poll_state_stable_noCount g now (s, d) hupd hg hcg hlast]
      exact ⟨rfl, hlast⟩
    · rw [poll_state_change g now (s, d) hupd hg (Ne.symm hcg) (by simp [hreq])]
      exact ⟨rfl, hlast⟩
  · intro hcur
    have e4 : pollTimes "No Mudra Detected" now 4 (s, d) =
        step (pollE "No Mudra Detected" now)
          (step (pollE "No Mudra Detected" now)
            (step (pollE "No Mudra Detected" now)
              (step (pollE "No Mudra Detected" now) (s, d)))) := rfl
    have e5 : pollTimes "No Mudra Detected" now 5 (s, d) =
        step (pollE "No Mudra Detected" now)
          (step (pollE "No Mudra Detected" now)
            (step (pollE "No Mudra Detected" now)
              (step (pollE "No Mudra Detected" now)
                (step (pollE "No Mudra Detected" now) (s, d))))) := rfl
    have h1 : (step (pollE "No Mudra Detected" now) (s, d)).1 =
        { s with stableFrames := 0, previousMudra := s.currentMudra,
                 currentMudra := "No Mudra Detected", isUpdating := false } :=
      poll_state_noMudra_change now (s, d) hupd hcur
    have h2 : (step (pollE "No Mudra Detected" now)
        (step (pollE "No Mudra Detected" now) (s, d))).1 =
        { s with stableFrames := 1, previousMudra := s.currentMudra,
                 currentMudra := "No Mudra Detected", isUpdating := false } := by
      have h := poll_state_noMudra_same now
        (step (pollE "No Mudra Detected" now) (s, d))
        (by rw [h1]) (by rw [h1]) (by rw [h1]; simp [hreq])
      rw [h1] at h
      simpa using h
    have h3 : (step (pollE "No Mudra Detected" now)
        (step (pollE "No Mudra Detected" now)
          (step (pollE "No Mudra Detected" now) (s, d)))).1 =
        { s with stableFrames := 2, previousMudra := s.currentMudra,
                 currentMudra := "No Mudra Detected", isUpdating := false } := by
      have h := poll_state_noMudra_same now
        (step (pollE "No Mudra Detected" now)
          (step (pollE "No Mudra Detected" now) (s, d)))
        (by rw [h2]) (by rw [h2]) (by rw [h2]; simp [hreq])
      rw [h2] at h
      simpa using h
    have h4 : (step (pollE "No Mudra Detected" now)
        (step (pollE "No Mudra Detected" now)
          (step (pollE "No Mudra Detected" now)
            (step (pollE "No Mudra Detected" now) (s, d))))).1 =
        { s with stableFrames := 3, previousMudra := s.currentMudra,
                 currentMudra := "No Mudra Detected", isUpdating := false } := by
      have h := poll_state_noMudra_same now
        (step (pollE "No Mudra Detected" now)
          (step (pollE "No Mudra Detected" now)
            (step (pollE "No Mudra Detected" now) (s, d))))
        (by rw [h3]) (by rw [h3]) (by rw [h3]; simp [hreq])
      rw [h3] at h
      simpa using h
    have h5 : (step (pollE "No Mudra Detected" now)
        (step (pollE "No Mudra Detected" now)
          (step (pollE "No Mudra Detected" now)
            (step (pollE "No Mudra Detected" now)
              (step (pollE "No Mudra Detected" now) (s, d)))))).1 =
        { s with stableFrames := 4, previousMudra := s.currentMudra,
                 currentMudra := "No Mudra Detected",
                 lastDetectedMudra := none, isUpdating := false } := by
      have h := poll_state_noMudra_reset now
        (step (pollE "No Mudra Detected" now)
          (step (pollE "No Mudra Detected" now)
            (step (pollE "No Mudra Detected" now)
              (step (pollE "No Mudra Detected" now) (s, d)))))
        (by rw [h4]) (by rw [h4]) (by rw [h4]; simp [hreq])
      rw [h4] at h
      simpa using h
    rw [e4, e5, h4, h5]
    exact ⟨rfl, rfl⟩

/-- Witness for the amended C6 at concrete inputs. -/
theorem C6_amended_recount_gate_witness :
    (pollTimes "No Mudra Detected" 0 4
        ((pollTimes "Pataka" 0 4 (initState 0, initDom)).1,
         (pollTimes "Pataka" 0 4 (initState 0, initDom)).2)).1.lastDetectedMudra =
      (pollTimes "Pataka" 0 4 (initState 0, initDom)).1.lastDetectedMudra ∧
    (pollTimes "No Mudra Detected" 0 5
        ((pollTimes "Pataka" 0 4 (initState 0, initDom)).1,
         (pollTimes "Pataka" 0 4 (initState 0, initDom)).2)).1.lastDetectedMudra =
      none :=
  (C6_amended_recount_gate
      (pollTimes "Pataka" 0 4 (initState 0, initDom)).1
      (pollTimes "Pataka" 0 4 (initState 0, initDom)).2 "Pataka" 0
      (by decide) (by decide) (by decide)).2 (by decide)

end MudraClient
